import Mathlib

/-!
Verification development for a small compiler front end
(lexer, Pratt parser, chained environments, LLVM-IR-style code generator).

The definitions below are a shallow embedding of the Python sources:
`Token.py`, `Lexer.py`, `Parser.py`, `AST.py`, `Environment.py`,
`Compiler.py`.  Loops are modelled with explicit fuel (a result of
`none` means the fuel ran out, i.e. the Python loop did not reach its
exit condition within that many iterations); Python exceptions are
modelled with `Except`; the llvmlite instruction builder (an external
dependency, not part of this repository) is modelled as an abstract
instruction-emission service that tags each emitted instruction with
the name of the basic block the builder is positioned in.
-/

set_option maxRecDepth 10000

namespace PyCompiler

/-! ### Token model (`Token.py`) -/

/-- Python `TokenType` enumeration from `Token.py`. -/
inductive TokenType
  | EOF | ILLEGAL
  | INT | FLOAT | IDENTIFIER
  | PLUS | MINUS | ASTERISK | SLASH | POWER | MODULUS
  | EQ
  | COLON | NEWLINE | NEXTLINE | LPAREN | RPAREN | ARROW
  | RETURN | DEF | PRINT
  | TYPE
  | STRING
deriving DecidableEq, Repr

/-- The `literal` payload of a token: Python stores `Any` there, in practice a
`str`, an `int` (for INT tokens) or a `float` (for FLOAT tokens).  Float
payloads are carried as their source text, since no claim computes with
float values. -/
inductive Literal
  | str (s : String)
  | int (n : Int)
  | float (raw : String)
deriving DecidableEq, Repr

/-- Python `Token` from `Token.py`. -/
structure Token where
  type : TokenType
  literal : Literal
  line_no : Nat
  position : Nat
deriving DecidableEq, Repr

/-- Python `identifier.startswith('"')`: the first character is a quote. -/
def startsWithQuote (s : String) : Bool :=
  match s.data with
  | [] => false
  | c :: _ => c = '"'

/-- Python `identifier.endswith('"')`: the last character is a quote. -/
def endsWithQuote (s : String) : Bool :=
  s.data.getLast? = some '"'

/-- The `KEYWORDS` / `TYPE_KEYWORDS` classification of `lookup_identifier`
in `Token.py`.  (The quote-check branch of `lookup_identifier` is dead code,
because identifiers scanned by the lexer never contain a quote; it is kept
here for faithfulness.) -/
def lookup_identifier (identifier : String) : TokenType :=
  if identifier = "def" then .DEF
  else if identifier = "return" then .RETURN
  else if identifier = "print" then .PRINT
  else if identifier = "int" ∨ identifier = "float" then .TYPE
  else if startsWithQuote identifier ∧ endsWithQuote identifier then .STRING
  else .IDENTIFIER

/-! ### Lexer (`Lexer.py`) -/

/-- Lexer state, mirroring `Lexer.__init__`.  The source is kept as a list of
characters so `source[i]` and slices translate directly. -/
structure Lexer where
  source : List Char
  position : Nat
  read_position : Nat
  line_no : Nat
  current_char : Option Char
deriving DecidableEq, Repr

/-- Python `Lexer.__read_char`. -/
def Lexer.read_char (l : Lexer) : Lexer :=
  { l with
    current_char := l.source.get? l.read_position
    position := l.read_position
    read_position := l.read_position + 1 }

/-- Python `Lexer.__peek_char`. -/
def Lexer.peek_char (l : Lexer) : Option Char :=
  l.source.get? l.read_position

/-- Python `Lexer.__init__` followed by the initial `__read_char`. -/
def lexerInit (source : String) : Lexer :=
  Lexer.read_char
    { source := source.data, position := 0, read_position := 0
      line_no := 1, current_char := none }

/-- Python `Lexer.__new_token`. -/
def Lexer.newToken (l : Lexer) (tt : TokenType) (lit : Literal) : Token :=
  { type := tt, literal := lit, line_no := l.line_no, position := l.position }

/-- Python `Lexer.__is_digit`. -/
def isDigitCh (ch : Char) : Bool := '0' ≤ ch ∧ ch ≤ '9'

/-- Python `Lexer.__is_letter`. -/
def isLetterCh (ch : Char) : Bool :=
  ('a' ≤ ch ∧ ch ≤ 'z') ∨ ('A' ≤ ch ∧ ch ≤ 'Z') ∨ ch = '_'

/-- Python `Lexer.__skip_whitespace`: the loop runs while the current character is a
space, tab or carriage return.  The newline check inside the body is kept as
in the source (it is unreachable, since a newline never enters the loop). -/
def skipWhitespaceFuel : Nat → Lexer → Lexer
  | 0, l => l
  | fuel + 1, l =>
    match l.current_char with
    | some c =>
      if c = ' ' ∨ c = '\t' ∨ c = '\r' then
        let l := if c = '\n' then { l with line_no := l.line_no + 1 } else l
        skipWhitespaceFuel fuel l.read_char
      else l
    | none => l

/-- Python `source[start:stop]` on the character list. -/
def sourceSlice (source : List Char) (start stop : Nat) : String :=
  String.mk ((source.drop start).take (stop - start))

/-- The value of Python `int(output)` on a string of decimal digits. -/
def strToInt (s : String) : Int :=
  s.data.foldl (fun acc c => acc * 10 + ((c.toNat - '0'.toNat) : Nat)) 0

/-- The loop body of `Lexer.__read_number`.  Returns the lexer, the final
dot count, the accumulated output, and an early ILLEGAL token when a second
decimal point was seen.  The `none` arm of the match on `current_char` is
unreachable in the source (the loop is entered on a digit and breaks before
re-testing a `None` character). -/
def readNumberLoop : Nat → Lexer → Nat → Nat → String →
    Lexer × Nat × String × Option Token
  | 0, l, _, dots, out => (l, dots, out, none)
  | fuel + 1, l, start, dots, out =>
    match l.current_char with
    | some c =>
      if isDigitCh c ∨ c = '.' then
        let dots := if c = '.' then dots + 1 else dots
        if dots > 1 then
          (l, dots, out, some (l.newToken .ILLEGAL
            (.str (sourceSlice l.source start l.position))))
        else
          let out := out.push c
          let l := l.read_char
          match l.current_char with
          | none => (l, dots, out, none)
          | some _ => readNumberLoop fuel l start dots out
      else (l, dots, out, none)
    | none => (l, dots, out, none)

/-- Python `Lexer.__read_number`. -/
def Lexer.read_number (l : Lexer) : Lexer × Token :=
  let start := l.position
  match readNumberLoop (l.source.length + 2) l start 0 "" with
  | (l2, _, _, some tok) => (l2, tok)
  | (l2, dots, out, none) =>
    if dots = 0 then (l2, l2.newToken .INT (.int (strToInt out)))
    else (l2, l2.newToken .FLOAT (.float out))

/-- The loop of `Lexer.__read_identifier`. -/
def readIdentifierLoop : Nat → Lexer → Lexer
  | 0, l => l
  | fuel + 1, l =>
    match l.current_char with
    | some c =>
      if isLetterCh c ∨ c.isAlphanum then readIdentifierLoop fuel l.read_char
      else l
    | none => l

/-- Python `Lexer.__read_identifier`: returns the advanced lexer and the slice
`source[position:self.position]`. -/
def Lexer.read_identifier (l : Lexer) : Lexer × String :=
  let l2 := readIdentifierLoop (l.source.length + 2) l
  (l2, sourceSlice l.source l.position l2.position)

/-- The `some c` arm of the character dispatch in `Lexer.next_token`: the
if-ladder over the current character `c`. -/
def dispatchChar (l : Lexer) (c : Char) : Lexer × Token :=
  if c = '+' then (l.read_char, l.newToken .PLUS (.str "+"))
  else if c = '-' then
    if l.peek_char = some '>' then
      let l2 := l.read_char
      (l2.read_char, l2.newToken .ARROW (.str "->"))
    else (l.read_char, l.newToken .MINUS (.str "-"))
  else if c = '*' then
    if l.peek_char = some '*' then
      let l2 := l.read_char
      (l2.read_char, l2.newToken .POWER (.str "**"))
    else (l.read_char, l.newToken .ASTERISK (.str "*"))
  else if c = '/' then (l.read_char, l.newToken .SLASH (.str "/"))
  else if c = '%' then (l.read_char, l.newToken .MODULUS (.str "%"))
  else if c = '=' then (l.read_char, l.newToken .EQ (.str "="))
  else if c = ':' then (l.read_char, l.newToken .COLON (.str ":"))
  else if c = '(' then (l.read_char, l.newToken .LPAREN (.str "("))
  else if c = ')' then (l.read_char, l.newToken .RPAREN (.str ")"))
  else if c = '\n' then (l.read_char, l.newToken .NEWLINE (.str "NEWLINE"))
  else if isLetterCh c then
    let (l2, lit) := l.read_identifier
    (l2, l2.newToken (lookup_identifier lit) (.str lit))
  else if isDigitCh c then l.read_number
  else (l.read_char, l.newToken .ILLEGAL (.str (String.singleton c)))

/-- The character dispatch of `Lexer.next_token` (the `match` statement that
runs after `__skip_whitespace`). -/
def dispatchToken (l : Lexer) : Lexer × Token :=
  match l.current_char with
  | none => (l.read_char, l.newToken .EOF (.str ""))
  | some c => dispatchChar l c

/-- Python `Lexer.next_token`: skip whitespace, then dispatch on the current
character. -/
def Lexer.next_token (l0 : Lexer) : Lexer × Token :=
  dispatchToken (skipWhitespaceFuel (l0.source.length + 2) l0)

/-- Repeatedly call `next_token` until an EOF token is produced, collecting
the tokens (EOF included); this is how both the parser and the debug loop in
`Test.py` consume the lexer. -/
def tokenizeFuel : Nat → Lexer → List Token
  | 0, _ => []
  | fuel + 1, l =>
    let (l2, t) := l.next_token
    if t.type = .EOF then [t] else t :: tokenizeFuel fuel l2

/-! ### AST model (`AST.py`)

Only the node shapes the parser actually constructs are embedded.  The
`IdentifierLiteral` wrappers used for statement names are flattened to their
`value` string (the compiler only ever reads `.value`), and a function body
(`BlockStatement`) is carried as its list of statements.  Expression
positions that Python may fill with `None` are `Option Expr`. -/

/-- Expression nodes from `AST.py`. -/
inductive Expr
  | integerLiteral (value : Int)
  | floatLiteral (value : String)
  | identifierLiteral (value : String)
  | infixExpression (left_node : Option Expr) (operator : String)
      (right_node : Option Expr)
  | callExpression (function : Option Expr) (arguments : List Expr)
deriving Repr

/-- Statement nodes from `AST.py` (the `BlockStatement` body of a function is
inlined as `body : List Stmt`). -/
inductive Stmt
  | expressionStatement (expr : Option Expr)
  | variableStatement (name : String) (value_type : String) (value : Option Expr)
  | functionStatement (name : String) (parameters : List Expr)
      (return_type : String) (body : List Stmt)
  | returnStatement (return_value : Option Expr)
  | assignStatement (identifier : String) (right_value : Option Expr)
deriving Repr

/-! ### Parser (`Parser.py`) -/

/-- Python `PrecedenceType` from `Parser.py` (constructor names de-pythonised;
`pPre` is the prefix level `P_PREFIX`). -/
inductive PrecedenceType
  | pLowest | pHighest | pLessGreater | pSum | pProduct
  | pExponent | pPre | pCall | pIndex
deriving DecidableEq, Repr

/-- The `.value` of each `PrecedenceType` member (Python `Enum`/`auto`). -/
def PrecedenceType.val : PrecedenceType → Nat
  | .pLowest => 0 | .pHighest => 1 | .pLessGreater => 2 | .pSum => 3
  | .pProduct => 4 | .pExponent => 5 | .pPre => 6 | .pCall => 7 | .pIndex => 8

/-- The `PRECEDENCES` dictionary from `Parser.py`. -/
def precedences : TokenType → Option PrecedenceType
  | .PLUS => some .pSum
  | .MINUS => some .pSum
  | .SLASH => some .pProduct
  | .ASTERISK => some .pProduct
  | .MODULUS => some .pProduct
  | .POWER => some .pExponent
  | .LPAREN => some .pCall
  | _ => none

/-- Parse diagnostics.  Python appends formatted strings to `self.errors`;
the same data is carried structurally here. -/
inductive ParseErr
  | expected (want got : TokenType)
  | noPrefixFn (tt : TokenType)
  | intParse (lit : Literal)
  | floatParse (lit : Literal)
deriving DecidableEq, Repr

/-- The keys of the `prefix_parse_fns` registry. -/
inductive PrefixKind | identKind | intKind | floatKind | groupedKind
deriving DecidableEq, Repr

/-- The keys of the `infix_parse_fns` registry. -/
inductive InfixKind | operatorKind | callKind
deriving DecidableEq, Repr

/-- Python `Parser.prefix_parse_fns`. -/
def prefixParseFns : TokenType → Option PrefixKind
  | .IDENTIFIER => some .identKind
  | .INT => some .intKind
  | .FLOAT => some .floatKind
  | .LPAREN => some .groupedKind
  | _ => none

/-- Python `Parser.infix_parse_fns`. -/
def infixParseFns : TokenType → Option InfixKind
  | .PLUS | .MINUS | .SLASH | .ASTERISK | .POWER | .MODULUS =>
    some .operatorKind
  | .LPAREN => some .callKind
  | _ => none

/-- Parser state: the lexer it pulls tokens from, the two-token lookahead
window and the diagnostic list. -/
structure Parser where
  lexer : Lexer
  current_token : Token
  peek_token : Token
  errors : List ParseErr
deriving Repr

/-- Python `Parser.__next_token`. -/
def Parser.nextToken (p : Parser) : Parser :=
  let (lx, t) := p.lexer.next_token
  { p with lexer := lx, current_token := p.peek_token, peek_token := t }

/-- Python `Parser.__init__`: `current_token`/`peek_token` start as `None` in Python
and are immediately filled by two `__next_token` calls; the state after those
two calls is constructed directly. -/
def initParser (lx : Lexer) : Parser :=
  let (lx1, t1) := lx.next_token
  let (lx2, t2) := lx1.next_token
  { lexer := lx2, current_token := t1, peek_token := t2, errors := [] }

/-- Python `Parser.__current_token_is`. -/
def Parser.curIs (p : Parser) (tt : TokenType) : Bool := p.current_token.type = tt

/-- Python `Parser.__peek_token_is`. -/
def Parser.peekIs (p : Parser) (tt : TokenType) : Bool := p.peek_token.type = tt

/-- Append a diagnostic. -/
def Parser.addError (p : Parser) (e : ParseErr) : Parser :=
  { p with errors := p.errors ++ [e] }

/-- Python `Parser.__expect_peek`. -/
def Parser.expectPeek (p : Parser) (tt : TokenType) : Bool × Parser :=
  if p.peekIs tt then (true, p.nextToken)
  else (false, p.addError (.expected tt p.peek_token.type))

/-- Python `Parser.__current_precedence`. -/
def Parser.currentPrecedence (p : Parser) : PrecedenceType :=
  (precedences p.current_token.type).getD .pLowest

/-- Python `Parser.__peek_precedence`. -/
def Parser.peekPrecedence (p : Parser) : PrecedenceType :=
  (precedences p.peek_token.type).getD .pLowest

/-- The string payload of a literal (operator tokens and identifier tokens
always carry a `str` payload). -/
def Literal.strVal : Literal → String
  | .str s => s
  | .int n => toString n
  | .float r => r

/-- Python `while self.__current_token_is(NEWLINE): self.__next_token()`. -/
def skipNewlinesCur : Nat → Parser → Option Parser
  | 0, _ => none
  | fuel + 1, p =>
    if p.curIs .NEWLINE then skipNewlinesCur fuel p.nextToken else some p

/-- Python `while self.__peek_token_is(NEWLINE): self.__next_token()` (the inner
loop of `__parse_expression`; unreachable there, kept faithful). -/
def skipNewlinesPeek : Nat → Parser → Option Parser
  | 0, _ => none
  | fuel + 1, p =>
    if p.peekIs .NEWLINE then skipNewlinesPeek fuel p.nextToken else some p

/-- The statement-terminator scan at the end of `__parse_variable_statement`:
`while not current is NEWLINE and not current is EOF: next_token`. -/
def skipToLineEnd : Nat → Parser → Option Parser
  | 0, _ => none
  | fuel + 1, p =>
    if ¬ p.curIs .NEWLINE ∧ ¬ p.curIs .EOF then skipToLineEnd fuel p.nextToken
    else some p

mutual

/-- Python `Parser.__parse_expression`.  A result of `none` means a Python loop in
the parser failed to terminate within `fuel` steps; `some (e?, p)` returns
the (possibly `None`) expression and the parser state. -/
def parseExpression (fuel : Nat) (p : Parser) (precedence : PrecedenceType) :
    Option (Option Expr × Parser) :=
  match fuel with
  | 0 => none
  | fuel + 1 =>
    match skipNewlinesCur fuel p with
    | none => none
    | some p =>
      match prefixParseFns p.current_token.type with
      | none => some (none, p.addError (.noPrefixFn p.current_token.type))
      | some pk =>
        match applyPrefixFn fuel pk p with
        | none => none
        | some (left, p) => parseExprLoop fuel p precedence left
termination_by structural fuel

/-- The `while` loop of `__parse_expression`. -/
def parseExprLoop (fuel : Nat) (p : Parser) (precedence : PrecedenceType)
    (left : Option Expr) : Option (Option Expr × Parser) :=
  match fuel with
  | 0 => none
  | fuel + 1 =>
    if ¬ p.peekIs .EOF ∧ ¬ p.peekIs .NEWLINE ∧
        precedence.val < p.peekPrecedence.val then
      match skipNewlinesPeek fuel p with
      | none => none
      | some p =>
        match infixParseFns p.peek_token.type with
        | none => some (left, p)
        | some ik =>
          let p := p.nextToken
          match applyInfixFn fuel ik p left with
          | none => none
          | some (left, p) => parseExprLoop fuel p precedence left
    else some (left, p)
termination_by structural fuel

/-- Dispatch through the `prefix_parse_fns` registry:
`__parse_identifier`, `__parse_int_literal`, `__parse_float_literal`,
`__parse_grouped_expression`.  (`int(...)`/`float(...)` can only fail when a
token carries an unexpected payload kind, which the lexer never produces;
those arms model the `except` branches.) -/
def applyPrefixFn (fuel : Nat) (pk : PrefixKind) (p : Parser) :
    Option (Option Expr × Parser) :=
  match fuel with
  | 0 => none
  | fuel + 1 =>
    match pk with
    | .identKind => some (some (.identifierLiteral p.current_token.literal.strVal), p)
    | .intKind =>
      match p.current_token.literal with
      | .int n => some (some (.integerLiteral n), p)
      | lit => some (none, p.addError (.intParse lit))
    | .floatKind =>
      match p.current_token.literal with
      | .float r => some (some (.floatLiteral r), p)
      | .int n => some (some (.floatLiteral (toString n)), p)
      | lit => some (none, p.addError (.floatParse lit))
    | .groupedKind => parseGroupedExpression fuel p
termination_by structural fuel

/-- Dispatch through the `infix_parse_fns` registry. -/
def applyInfixFn (fuel : Nat) (ik : InfixKind) (p : Parser)
    (left : Option Expr) : Option (Option Expr × Parser) :=
  match fuel with
  | 0 => none
  | fuel + 1 =>
    match ik with
    | .operatorKind => parseOperatorExpression fuel p left
    | .callKind => parseCallExpression fuel p left
termination_by structural fuel

/-- Python `Parser.__parse_grouped_expression`. -/
def parseGroupedExpression (fuel : Nat) (p : Parser) :
    Option (Option Expr × Parser) :=
  match fuel with
  | 0 => none
  | fuel + 1 =>
    let p := p.nextToken
    match parseExpression fuel p .pLowest with
    | none => none
    | some (expr, p) =>
      match p.expectPeek .RPAREN with
      | (false, p) => some (none, p)
      | (true, p) => some (expr, p)
termination_by structural fuel

/-- Python `Parser.__parse_infix_expression` (binary-operator case). -/
def parseOperatorExpression (fuel : Nat) (p : Parser) (left : Option Expr) :
    Option (Option Expr × Parser) :=
  match fuel with
  | 0 => none
  | fuel + 1 =>
    let op := p.current_token.literal.strVal
    let prec := p.currentPrecedence
    let p := p.nextToken
    match parseExpression fuel p prec with
    | none => none
    | some (right, p) => some (some (.infixExpression left op right), p)
termination_by structural fuel

/-- Python `Parser.__parse_call_expression`: the argument list is set to `[]` and a
closing parenthesis is required immediately. -/
def parseCallExpression (fuel : Nat) (p : Parser) (left : Option Expr) :
    Option (Option Expr × Parser) :=
  match fuel with
  | 0 => none
  | _ + 1 =>
    match p.expectPeek .RPAREN with
    | (false, p) => some (none, p)
    | (true, p) => some (some (.callExpression left []), p)

/-- Python `Parser.__parse_statement`. -/
def parseStatement (fuel : Nat) (p : Parser) : Option (Option Stmt × Parser) :=
  match fuel with
  | 0 => none
  | fuel + 1 =>
    match skipNewlinesCur fuel p with
    | none => none
    | some p =>
      match p.current_token.type with
      | .IDENTIFIER =>
        if p.peekIs .EQ then parseAssignStatement fuel p
        else parseVariableStatement fuel p
      | .DEF => parseFunctionStatement fuel p
      | .RETURN => parseReturnStatement fuel p
      | _ => parseExpressionStatement fuel p
termination_by structural fuel

/-- Python `Parser.__parse_expression_statement`. -/
def parseExpressionStatement (fuel : Nat) (p : Parser) :
    Option (Option Stmt × Parser) :=
  match fuel with
  | 0 => none
  | fuel + 1 =>
    match parseExpression fuel p .pLowest with
    | none => none
    | some (expr, p) =>
      let p := if p.peekIs .NEWLINE then p.nextToken else p
      some (some (.expressionStatement expr), p)

/-- Python `Parser.__parse_variable_statement`. -/
def parseVariableStatement (fuel : Nat) (p : Parser) :
    Option (Option Stmt × Parser) :=
  match fuel with
  | 0 => none
  | fuel + 1 =>
    if ¬ p.curIs .IDENTIFIER then some (none, p)
    else
      let name := p.current_token.literal.strVal
      match p.expectPeek .COLON with
      | (false, p) => some (none, p)
      | (true, p) =>
        match p.expectPeek .TYPE with
        | (false, p) => some (none, p)
        | (true, p) =>
          let vt := p.current_token.literal.strVal
          match p.expectPeek .EQ with
          | (false, p) => some (none, p)
          | (true, p) =>
            let p := p.nextToken
            match parseExpression fuel p .pLowest with
            | none => none
            | some (value, p) =>
              match skipToLineEnd fuel p with
              | none => none
              | some p => some (some (.variableStatement name vt value), p)

/-- Python `Parser.__parse_function_statement`. -/
def parseFunctionStatement (fuel : Nat) (p : Parser) :
    Option (Option Stmt × Parser) :=
  match fuel with
  | 0 => none
  | fuel + 1 =>
    match p.expectPeek .IDENTIFIER with
    | (false, p) => some (none, p)
    | (true, p) =>
      let name := p.current_token.literal.strVal
      match p.expectPeek .LPAREN with
      | (false, p) => some (none, p)
      | (true, p) =>
        -- stmt.parameters = []
        match p.expectPeek .RPAREN with
        | (false, p) => some (none, p)
        | (true, p) =>
          match p.expectPeek .ARROW with
          | (false, p) => some (none, p)
          | (true, p) =>
            match p.expectPeek .TYPE with
            | (false, p) => some (none, p)
            | (true, p) =>
              let rt := p.current_token.literal.strVal
              match p.expectPeek .COLON with
              | (false, p) => some (none, p)
              | (true, p) =>
                match parseBlockStatement fuel p with
                | none => none
                | some (body, p) =>
                  some (some (.functionStatement name [] rt body), p)
termination_by structural fuel

/-- Python `Parser.__parse_return_statement`. -/
def parseReturnStatement (fuel : Nat) (p : Parser) :
    Option (Option Stmt × Parser) :=
  match fuel with
  | 0 => none
  | fuel + 1 =>
    let p := p.nextToken
    match parseExpression fuel p .pLowest with
    | none => none
    | some (rv, p) =>
      match p.expectPeek .NEWLINE with
      | (false, p) => some (none, p)
      | (true, p) => some (some (.returnStatement rv), p)

/-- Python `Parser.__parse_block_statement` (advance, then loop to EOF). -/
def parseBlockStatement (fuel : Nat) (p : Parser) :
    Option (List Stmt × Parser) :=
  match fuel with
  | 0 => none
  | fuel + 1 => parseBlockLoop fuel p.nextToken []
termination_by structural fuel

/-- The statement loop of `__parse_block_statement`. -/
def parseBlockLoop (fuel : Nat) (p : Parser) (acc : List Stmt) :
    Option (List Stmt × Parser) :=
  match fuel with
  | 0 => none
  | fuel + 1 =>
    if p.curIs .EOF then some (acc, p)
    else
      match parseStatement fuel p with
      | none => none
      | some (stmt?, p) =>
        let acc := match stmt? with | some s => acc ++ [s] | none => acc
        parseBlockLoop fuel p.nextToken acc
termination_by structural fuel

/-- Python `Parser.__parse_assign_statement`. -/
def parseAssignStatement (fuel : Nat) (p : Parser) :
    Option (Option Stmt × Parser) :=
  match fuel with
  | 0 => none
  | fuel + 1 =>
    let ident := p.current_token.literal.strVal
    let p := p.nextToken.nextToken
    match parseExpression fuel p .pLowest with
    | none => none
    | some (rv, p) => some (some (.assignStatement ident rv), p.nextToken)

/-- The statement loop of `Parser.parse_program`. -/
def parseProgramLoop (fuel : Nat) (p : Parser) (acc : List Stmt) :
    Option (List Stmt × Parser) :=
  match fuel with
  | 0 => none
  | fuel + 1 =>
    match skipNewlinesCur fuel p with
    | none => none
    | some p =>
      if p.curIs .EOF then some (acc, p)
      else
        match parseStatement fuel p with
        | none => none
        | some (stmt?, p) =>
          let acc := match stmt? with | some s => acc ++ [s] | none => acc
          match skipNewlinesCur fuel p with
          | none => none
          | some p => parseProgramLoop fuel p acc


termination_by structural fuel
end

/-- Python `Parser.parse_program`: returns the statement list of the `Program` node
and the final parser state (whose `errors` are the diagnostics). -/
def parseProgram (fuel : Nat) (p : Parser) : Option (List Stmt × Parser) :=
  parseProgramLoop fuel p []

/-- Lex and parse a source string; returns the program statements and the
diagnostics, or `none` if a parser loop did not terminate within `fuel`. -/
def parseSource (fuel : Nat) (source : String) :
    Option (List Stmt × List ParseErr) :=
  (parseProgram fuel (initParser (lexerInit source))).map
    fun r => (r.1, r.2.errors)

/-! ### Environment (`Environment.py`) -/

/-- Backend (llvmlite) types used by the compiler: `ir.IntType(32)` and
`ir.FloatType()`. -/
inductive IRType | i32 | flt
deriving DecidableEq, Repr

/-- Backend values as far as the compiler distinguishes them: typed constants
(`ir.Constant`), stack-slot pointers returned by `alloca`, instruction
results (`load`/arithmetic/`call`), and `ir.Function` handles. -/
inductive IRValue
  | const (ty : IRType) (intVal : Int)
  | constFloat (raw : String)
  | ptr (id : Nat)
  | instr (id : Nat)
  | funcRef (name : String)
deriving DecidableEq, Repr

/-- Python `Environment` from `Environment.py`: a record dictionary mapping a name
to `(value, type)` plus an optional parent link.  The `type` component is
optional because `__visit_variable_statement` stores the type returned by
`__resolve_value`, which can be `None`. -/
inductive Env
  | mk (records : List (String × IRValue × Option IRType)) (parent : Option Env)
      (name : String)

/-- The record dictionary of an environment. -/
def Env.records : Env → List (String × IRValue × Option IRType)
  | .mk rs _ _ => rs

/-- The parent link of an environment. -/
def Env.parent : Env → Option Env
  | .mk _ par _ => par

/-- Python-dict insertion/overwrite on the association list. -/
def recordsInsert (rs : List (String × IRValue × Option IRType))
    (name : String) (v : IRValue) (t : Option IRType) :
    List (String × IRValue × Option IRType) :=
  match rs with
  | [] => [(name, v, t)]
  | (n, e) :: rest =>
    if n = name then (n, v, t) :: rest
    else (n, e) :: recordsInsert rest name v t

/-- Python `Environment.define`: inserts/overwrites in the current (innermost)
scope. -/
def Env.define (env : Env) (name : String) (v : IRValue) (t : Option IRType) :
    Env :=
  match env with
  | .mk rs par nm => .mk (recordsInsert rs name v t) par nm

/-- Python `Environment.lookup` / `__resolve`: innermost-to-outermost search,
`none` when unbound everywhere. -/
def Env.lookup (env : Env) (name : String) : Option (IRValue × Option IRType) :=
  match env with
  | .mk rs par _ =>
    match rs.lookup name with
    | some e => some e
    | none =>
      match par with
      | some parent => parent.lookup name
      | none => none

/-! ### Code generator (`Compiler.py`) -/

/-- Compile diagnostics (`Compiler.errors`); Python appends formatted
strings, the same data is carried structurally. -/
inductive CompileErr
  | unknownType (value_type name : String)
  | notDeclared (name : String)
deriving DecidableEq, Repr

/-- Python exceptions escaping the code generator:
`unpackNone` is the `TypeError` raised by unpacking a `None` returned by
`Environment.lookup`; `attributeNone` is the `AttributeError` raised by
calling `.type()`/attribute access on a `None` node or by handing a `None`
value to the instruction builder; `keyError` is `self.type_map[...]` on an
unsupported key. -/
inductive CompFault
  | unpackNone
  | attributeNone
  | keyError (k : String)
deriving DecidableEq, Repr

/-- Python `Compiler.type_map`. -/
def type_map : String → Option IRType
  | "int" => some .i32
  | "float" => some .flt
  | _ => none

/-- Instructions recorded through the builder, tagged with the basic block
the builder is positioned in (the fresh module-level `ir.IRBuilder()` of
`Compiler.__init__`, which has no block, is tagged `"<module>"`). -/
inductive Instr
  | alloca (blk : String) (id : Nat) (ty : IRType) (name : String)
  | store (blk : String) (value : IRValue) (target : IRValue)
  | load (blk : String) (id : Nat) (source : IRValue)
  | binop (blk : String) (op : String) (id : Nat) (left right : IRValue)
  | callInstr (blk : String) (id : Nat) (callee : IRValue) (args : List IRValue)
  | ret (blk : String) (value : IRValue)
deriving Repr

/-- Code-generator state: emitted instructions, a fresh-id counter, the
builder's current block, the functions created in the module, the active
environment and the diagnostic list. -/
structure CompState where
  instructions : List Instr
  counter : Nat
  block : String
  funcs : List (String × IRType)
  env : Env
  errors : List CompileErr

/-- Python `Compiler.__init__`. -/
def initCompState : CompState :=
  { instructions := [], counter := 0, block := "<module>", funcs := []
    env := .mk [] none "global", errors := [] }

/-- Emit an instruction. -/
def CompState.emit (st : CompState) (i : Instr) : CompState :=
  { st with instructions := st.instructions ++ [i] }

/-- Draw a fresh value/pointer id. -/
def CompState.fresh (st : CompState) : Nat × CompState :=
  (st.counter, { st with counter := st.counter + 1 })

/-- The `(value, Type)` pairs returned by `__resolve_value` /
`__visit_infix_expression`; either component can be Python `None`. -/
abbrev RVal := Option IRValue × Option IRType

mutual

/-- Python `Compiler.__resolve_value` applied to an AST slot that may hold `None`
(calling `.type()` on `None` raises `AttributeError`). -/
def resolveOptValue (st : CompState) (e : Option Expr) :
    Except CompFault (RVal × CompState) :=
  match e with
  | none => .error .attributeNone
  | some e => resolveValue st e

/-- Python `Compiler.__resolve_value`.  The `InfixExpression` and `CallExpression`
arms inline `__visit_infix_expression` and `__visit_call_expression`, which
is where `resolve_value` dispatches for those node kinds. -/
def resolveValue (st : CompState) (e : Expr) :
    Except CompFault (RVal × CompState) :=
  match e with
  | .integerLiteral n => .ok ((some (.const .i32 n), some .i32), st)
  | .floatLiteral r => .ok ((some (.constFloat r), some .flt), st)
  | .identifierLiteral v =>
    -- `ptr, Type = self.env.lookup(node.value)`: unpacking `None` raises.
    match st.env.lookup v with
    | none => .error .unpackNone
    | some (p, t) =>
      let (id, st) := st.fresh
      .ok ((some (.instr id), t), st.emit (.load st.block id p))
  | .infixExpression l op r =>
    -- Compiler.__visit_infix_expression
    match resolveOptValue st l with
    | .error f => .error f
    | .ok ((lv, lt), st) =>
      match resolveOptValue st r with
      | .error f => .error f
      | .ok ((rv, rt), st) =>
        if rt = some .i32 ∧ lt = some .i32 then
          -- both operands IntType; '**' is an unimplemented `pass`
          if op = "+" ∨ op = "-" ∨ op = "*" ∨ op = "/" ∨ op = "%" then
            match lv, rv with
            | some lval, some rval =>
              let opName :=
                if op = "+" then "add" else if op = "-" then "sub"
                else if op = "*" then "mul" else if op = "/" then "sdiv"
                else "srem"
              let (id, st) := st.fresh
              .ok ((some (.instr id), some .i32),
                st.emit (.binop st.block opName id lval rval))
            | _, _ => .error .attributeNone
          else .ok ((none, some .i32), st)
        else if rt = some .flt ∧ lt = some .flt then
          -- both operands FloatType; '%' and '**' are unimplemented `pass`
          if op = "+" ∨ op = "-" ∨ op = "*" ∨ op = "/" then
            match lv, rv with
            | some lval, some rval =>
              let opName :=
                if op = "+" then "fadd" else if op = "-" then "fsub"
                else if op = "*" then "fmul" else "fdiv"
              let (id, st) := st.fresh
              .ok ((some (.instr id), some .flt),
                st.emit (.binop st.block opName id lval rval))
            | _, _ => .error .attributeNone
          else .ok ((none, some .flt), st)
        else
          -- mismatched kinds: no case matches, value and Type stay None
          .ok ((none, none), st)
  | .callExpression f args =>
    -- Compiler.__visit_call_expression
    match resolveArgs st args with
    | .error fa => .error fa
    | .ok (argVals, st) =>
      -- `name = node.function.value`
      match f with
      | none => .error .attributeNone
      | some (.identifierLiteral name) =>
        -- `func, ret_type = self.env.lookup(name)`: unpacking `None` raises
        match st.env.lookup name with
        | none => .error .unpackNone
        | some (fv, rt) =>
          let (id, st) := st.fresh
          .ok ((some (.instr id), rt),
            st.emit (.callInstr st.block id fv argVals))
      | some (.integerLiteral _) | some (.floatLiteral _) =>
        -- a non-string `.value` is never a dict key: lookup yields None
        .error .unpackNone
      | some _ => .error .attributeNone

/-- The argument-resolution loop of `__visit_call_expression` (a builder
`call` with a `None` argument value would raise; the parser always produces
an empty argument list). -/
def resolveArgs (st : CompState) (args : List Expr) :
    Except CompFault (List IRValue × CompState) :=
  match args with
  | [] => .ok ([], st)
  | a :: rest =>
    match resolveValue st a with
    | .error f => .error f
    | .ok ((v, _), st) =>
      match v with
      | none => .error .attributeNone
      | some v =>
        match resolveArgs st rest with
        | .error f => .error f
        | .ok (vs, st) => .ok (v :: vs, st)

end

/-- Python `Compiler.__visit_variable_statement`. -/
def visitVariableStatement (st : CompState) (name : String)
    (value_type : String) (value : Option Expr) :
    Except CompFault CompState :=
  match resolveOptValue st value with
  | .error f => .error f
  | .ok ((v, t), st) =>
    match st.env.lookup name with
    | none =>
      match type_map value_type with
      | none =>
        .ok { st with errors := st.errors ++ [.unknownType value_type name] }
      | some llvm_type =>
        let (id, st) := st.fresh
        let st := st.emit (.alloca st.block id llvm_type name)
        match v with
        | none => .error .attributeNone   -- builder.store(None, ptr) raises
        | some v =>
          let st := st.emit (.store st.block v (.ptr id))
          .ok { st with env := st.env.define name (.ptr id) t }
    | some (p, _) =>
      match v with
      | none => .error .attributeNone
      | some v => .ok (st.emit (.store st.block v p))

/-- Python `Compiler.__visit_assign_statement`. -/
def visitAssignStatement (st : CompState) (name : String)
    (value : Option Expr) : Except CompFault CompState :=
  match resolveOptValue st value with
  | .error f => .error f
  | .ok ((v, _), st) =>
    match st.env.lookup name with
    | none => .ok { st with errors := st.errors ++ [.notDeclared name] }
    | some (p, _) =>
      match v with
      | none => .error .attributeNone
      | some v => .ok (st.emit (.store st.block v p))

/-- Python `Compiler.__visit_return_statement`. -/
def visitReturnStatement (st : CompState) (value : Option Expr) :
    Except CompFault CompState :=
  match resolveOptValue st value with
  | .error f => .error f
  | .ok ((v, _), st) =>
    match v with
    | none => .error .attributeNone   -- builder.ret(None) raises
    | some v => .ok (st.emit (.ret st.block v))

/-- The prefix of `Compiler.__visit_function_statement` that runs before
`self.compile(body)`: create the function and its entry block, switch the
builder to that block, push a new scope chained to the current one and
register the function name in that new scope. -/
def functionBodySetup (st : CompState) (name : String) (rty : IRType) :
    CompState :=
  let inner := Env.define (.mk [] (some st.env) "global") name (.funcRef name)
    (some rty)
  { st with
    block := name ++ "_entry"
    funcs := st.funcs ++ [(name, rty)]
    env := inner }

mutual

/-- Python `Compiler.compile` restricted to statement nodes (the `match` in
`Compiler.compile`; node kinds without a case do nothing). -/
def compileStmt (st : CompState) (s : Stmt) : Except CompFault CompState :=
  match s with
  | .expressionStatement e =>
    -- Compiler.__visit_expression_statement: self.compile(node.expr)
    match e with
    | none => .error .attributeNone   -- None.type() raises
    | some (.infixExpression l op r) =>
      match resolveValue st (.infixExpression l op r) with
      | .error f => .error f
      | .ok (_, st) => .ok st
    | some (.callExpression f args) =>
      match resolveValue st (.callExpression f args) with
      | .error f => .error f
      | .ok (_, st) => .ok st
    | some _ => .ok st   -- literals/identifiers: no case in compile()
  | .variableStatement name vt value => visitVariableStatement st name vt value
  | .functionStatement name params rt body =>
    -- Compiler.__visit_function_statement
    match params with
    | _ :: _ => .error .attributeNone  -- `p.value.name` on a str raises
    | [] =>
      match type_map rt with
      | none => .error (.keyError rt)  -- `self.type_map[node.return_type]`
      | some rty =>
        let saved_block := st.block
        let saved_env := st.env
        match compileStmts (functionBodySetup st name rty) body with
        | .error f => .error f
        | .ok st2 =>
          -- restore the previous environment, re-register the function
          -- there, and restore the previous builder
          .ok { st2 with
                env := saved_env.define name (.funcRef name) (some rty)
                block := saved_block }
  | .returnStatement v => visitReturnStatement st v
  | .assignStatement name v => visitAssignStatement st name v

/-- Python `Compiler.__visit_program` / `__visit_block_statement`: compile each
statement in order. -/
def compileStmts (st : CompState) (stmts : List Stmt) :
    Except CompFault CompState :=
  match stmts with
  | [] => .ok st
  | s :: rest =>
    match compileStmt st s with
    | .error f => .error f
    | .ok st => compileStmts st rest

end

/-- Run the code generator on a parsed program, as the drivers do:
`Compiler()` then `compile(program)`. -/
def compileProgram (stmts : List Stmt) : Except CompFault CompState :=
  compileStmts initCompState stmts

/-! ### Concrete programs used by the claims -/

/-- Program `x: int = 1` followed by `def f() -> int:` whose body redeclares
`x: int = 2` and returns `0`. -/
def shadowProgram : List Stmt :=
  [.variableStatement "x" "int" (some (.integerLiteral 1)),
   .functionStatement "f" [] "int"
     [.variableStatement "x" "int" (some (.integerLiteral 2)),
      .returnStatement (some (.integerLiteral 0))]]

/-- The expression statement `1 + 2.0`. -/
def mismatchProgram : List Stmt :=
  [.expressionStatement (some (.infixExpression
    (some (.integerLiteral 1)) "+" (some (.floatLiteral "2.0"))))]

/-- The expression statement `g()` with `g` unbound. -/
def unboundCallProgram : List Stmt :=
  [.expressionStatement (some (.callExpression
    (some (.identifierLiteral "g")) []))]

/-- Program `x: int = 5` followed by `x: bool = 2` (unsupported annotation on an
already-bound name). -/
def boundBadTypeProgram : List Stmt :=
  [.variableStatement "x" "int" (some (.integerLiteral 5)),
   .variableStatement "x" "bool" (some (.integerLiteral 2))]

/-- A state whose global scope binds `x` to stack slot `ptr 0`. -/
def boundState : CompState :=
  { initCompState with
    env := initCompState.env.define "x" (.ptr 0) (some .i32) }

/-- The sum-class operators of the spec. -/
def sumOps : List String := ["+", "-"]

/-- The product-class operators of the spec. -/
def productOps : List String := ["*", "/", "%"]

/-- The source text `2 o1 3 o2 4` for an operator pair. -/
def mkArithSource (o1 o2 : String) : String :=
  "2 " ++ o1 ++ " 3 " ++ o2 ++ " 4"

/-- The parser state reached on the source `"1.2.3"` after initialisation:
`current_token` is the lexical ILLEGAL token `1.2`, `peek_token` the ILLEGAL
token `.`, with a given diagnostic list. -/
def stuckParser (errs : List ParseErr) : Parser :=
  { initParser (lexerInit "1.2.3") with errors := errs }

/-! ### C10: every parsed CallExpression has an empty argument list -/

mutual

/-- Every `CallExpression` node inside the expression has an empty argument
list. -/
def exprCallsEmpty : Expr → Bool
  | .integerLiteral _ => true
  | .floatLiteral _ => true
  | .identifierLiteral _ => true
  | .infixExpression l _ r => optCallsEmpty l && optCallsEmpty r
  | .callExpression f args => args.isEmpty && optCallsEmpty f

def optCallsEmpty : Option Expr → Bool
  | none => true
  | some e => exprCallsEmpty e

end

mutual

/-- Every `CallExpression` node inside the statement has an empty argument
list (function parameter lists, which the parser also always leaves empty,
are required empty as well). -/
def stmtCallsEmpty : Stmt → Bool
  | .expressionStatement e => optCallsEmpty e
  | .variableStatement _ _ v => optCallsEmpty v
  | .functionStatement _ ps _ body => ps.isEmpty && stmtsCallsEmpty body
  | .returnStatement v => optCallsEmpty v
  | .assignStatement _ v => optCallsEmpty v

def stmtsCallsEmpty : List Stmt → Bool
  | [] => true
  | s :: rest => stmtCallsEmpty s && stmtsCallsEmpty rest

end

/-- Lift of `stmtCallsEmpty` to an optional statement. -/
def optStmtCallsEmpty : Option Stmt → Bool
  | none => true
  | some s => stmtCallsEmpty s

/-- Every call node in a (completed) `parse_program` result has an empty
argument list; an out-of-fuel run imposes nothing. -/
def progResultCallsEmpty : Option (List Stmt × Parser) → Bool
  | none => true
  | some r => stmtsCallsEmpty r.1

/-! ### Theorems -/

/-! ### C9: the line counter never advances -/

theorem read_char_line (l : Lexer) : (Lexer.read_char l).line_no = l.line_no := rfl

theorem skipWhitespace_line : ∀ (fuel : Nat) (l : Lexer),
    (skipWhitespaceFuel fuel l).line_no = l.line_no
  | 0, _ => rfl
  | fuel + 1, l => by
    unfold skipWhitespaceFuel
    rcases hc : l.current_char with _ | c
    · rfl
    · by_cases hw : c = ' ' ∨ c = '\t' ∨ c = '\r'
      · have hn : ¬ (c = '\n') := by
          rcases hw with h | h | h <;> subst h <;> decide
        simp only [hw, if_true, hn, if_false]
        exact skipWhitespace_line fuel _
      · simp only [hw, if_false]


theorem readNumberLoop_line : ∀ (fuel : Nat) (l : Lexer) (start dots : Nat)
    (out : String),
    (readNumberLoop fuel l start dots out).1.line_no = l.line_no ∧
    (∀ t, (readNumberLoop fuel l start dots out).2.2.2 = some t →
      t.line_no = l.line_no)
  | 0, l, start, dots, out => ⟨rfl, by intro t h; cases h⟩
  | fuel + 1, l, start, dots, out => by
    unfold readNumberLoop
    rcases hc : l.current_char with _ | c
    · exact ⟨rfl, by intro t h; cases h⟩
    · by_cases hd : isDigitCh c = true ∨ c = '.'
      · simp only [hd, if_true]
        by_cases hdots : (if c = '.' then dots + 1 else dots) > 1
        · simp only [hdots, if_true]
          refine ⟨by trivial, fun t h => ?_⟩
          cases h
          rfl
        · simp only [hdots, if_false]
          rcases hc2 : (Lexer.read_char l).current_char with _ | c2
          · simp only [hc2]
            refine ⟨by trivial, fun t h => ?_⟩
            cases h
          · simp only [hc2]
            exact readNumberLoop_line fuel (Lexer.read_char l) start
              (if c = '.' then dots + 1 else dots) (out.push c)
      · simp only [hd, if_false]
        exact ⟨by trivial, by intro t h; cases h⟩

theorem read_number_line (l : Lexer) :
    (l.read_number).1.line_no = l.line_no ∧
    (l.read_number).2.line_no = l.line_no := by
  simp only [Lexer.read_number]
  have h := readNumberLoop_line (l.source.length + 2) l l.position 0 ""
  rcases he : readNumberLoop (l.source.length + 2) l l.position 0 "" with
    ⟨l2, dots, out, tk⟩
  rw [he] at h
  rcases tk with _ | t
  · by_cases hd : dots = 0
    · simp only [hd, if_true]
      exact ⟨h.1, h.1⟩
    · simp only [hd, if_false]
      exact ⟨h.1, h.1⟩
  · exact ⟨h.1, h.2 t rfl⟩

theorem readIdentifierLoop_line : ∀ (fuel : Nat) (l : Lexer),
    (readIdentifierLoop fuel l).line_no = l.line_no
  | 0, _ => rfl
  | fuel + 1, l => by
    unfold readIdentifierLoop
    rcases hc : l.current_char with _ | c
    · rfl
    · by_cases hl : isLetterCh c = true ∨ c.isAlphanum = true
      · simp only [hl, if_true]
        exact readIdentifierLoop_line fuel _
      · simp only [hl, if_false]


theorem dispatchChar_line (l : Lexer) (c : Char) :
    (dispatchChar l c).1.line_no = l.line_no ∧
    (dispatchChar l c).2.line_no = l.line_no := by
  unfold dispatchChar
  by_cases h1 : c = '+'
  · rw [if_pos h1]; exact ⟨rfl, rfl⟩
  rw [if_neg h1]
  by_cases h2 : c = '-'
  · rw [if_pos h2]
    by_cases hp : l.peek_char = some '>'
    · rw [if_pos hp]; exact ⟨rfl, rfl⟩
    · rw [if_neg hp]; exact ⟨rfl, rfl⟩
  rw [if_neg h2]
  by_cases h3 : c = '*'
  · rw [if_pos h3]
    by_cases hp : l.peek_char = some '*'
    · rw [if_pos hp]; exact ⟨rfl, rfl⟩
    · rw [if_neg hp]; exact ⟨rfl, rfl⟩
  rw [if_neg h3]
  by_cases h4 : c = '/'
  · rw [if_pos h4]; exact ⟨rfl, rfl⟩
  rw [if_neg h4]
  by_cases h5 : c = '%'
  · rw [if_pos h5]; exact ⟨rfl, rfl⟩
  rw [if_neg h5]
  by_cases h6 : c = '='
  · rw [if_pos h6]; exact ⟨rfl, rfl⟩
  rw [if_neg h6]
  by_cases h7 : c = ':'
  · rw [if_pos h7]; exact ⟨rfl, rfl⟩
  rw [if_neg h7]
  by_cases h8 : c = '('
  · rw [if_pos h8]; exact ⟨rfl, rfl⟩
  rw [if_neg h8]
  by_cases h9 : c = ')'
  · rw [if_pos h9]; exact ⟨rfl, rfl⟩
  rw [if_neg h9]
  by_cases h10 : c = '\n'
  · rw [if_pos h10]; exact ⟨rfl, rfl⟩
  rw [if_neg h10]
  by_cases h11 : isLetterCh c = true
  · rw [if_pos h11]
    exact ⟨readIdentifierLoop_line (l.source.length + 2) l,
           readIdentifierLoop_line (l.source.length + 2) l⟩
  rw [if_neg h11]
  by_cases h12 : isDigitCh c = true
  · rw [if_pos h12]
    exact read_number_line l
  rw [if_neg h12]
  exact ⟨rfl, rfl⟩

theorem dispatchToken_line (l : Lexer) :
    (dispatchToken l).1.line_no = l.line_no ∧
    (dispatchToken l).2.line_no = l.line_no := by
  unfold dispatchToken
  rcases hc : l.current_char with _ | c
  · exact ⟨rfl, rfl⟩
  · exact dispatchChar_line l c

theorem next_token_line (l : Lexer) :
    (l.next_token).1.line_no = l.line_no ∧
    (l.next_token).2.line_no = l.line_no := by
  have hw := skipWhitespace_line (l.source.length + 2) l
  have hd := dispatchToken_line (skipWhitespaceFuel (l.source.length + 2) l)
  exact ⟨hd.1.trans hw, hd.2.trans hw⟩

theorem tokenize_line : ∀ (fuel : Nat) (l : Lexer),
    ((tokenizeFuel fuel l).all fun t => t.line_no == l.line_no) = true
  | 0, _ => rfl
  | fuel + 1, l => by
    unfold tokenizeFuel
    have h := next_token_line l
    rcases he : l.next_token with ⟨l2, t⟩
    rw [he] at h
    by_cases ht : t.type = TokenType.EOF
    · simp only [ht, if_true, List.all_cons, List.all_nil, Bool.and_true,
        beq_iff_eq]
      exact h.2
    · simp only [ht, if_false, List.all_cons, Bool.and_eq_true, beq_iff_eq]
      refine ⟨h.2, ?_⟩
      have ih := tokenize_line fuel l2
      rw [h.1] at ih
      exact ih

/-- C9.  Every token the lexer produces, on any source text, carries line
number 1: the newline character is not in the whitespace set whose handler
holds the only line-counter increment, and the NEWLINE token case does not
increment it, so the counter never moves off its initial value. -/
theorem claim_C9 (source : String) (fuel : Nat) :
    ((tokenizeFuel fuel (lexerInit source)).all fun t => t.line_no == 1) = true :=
  tokenize_line fuel (lexerInit source)

/-! ### Claims about the code generator -/

/-- C1.  The spec requires shadowing: declaring `x` inside a function body
when `x` is bound in the outer scope must create a new inner binding and
must not alter the outer binding's storage.  Evaluating the code on such a
program shows the opposite: `__visit_variable_statement` looks `x` up
through the whole scope chain, finds the outer binding, and emits a store
to the *outer* stack slot (`ptr 0`, the only alloca, created at module
level) from inside the function's entry block; no inner binding and no
second stack slot are ever created, and the final global scope is the
outer `x` plus `f`. -/
theorem claim_C1_eval :
    (compileProgram shadowProgram).map
      (fun st => (st.instructions, st.errors, st.env.records))
    = .ok ([.alloca "<module>" 0 .i32 "x",
            .store "<module>" (.const .i32 1) (.ptr 0),
            .store "f_entry" (.const .i32 2) (.ptr 0),
            .ret "f_entry" (.const .i32 0)],
           [],
           [("x", .ptr 0, some .i32), ("f", .funcRef "f", some .i32)]) := rfl

/-- C2.  The claim states that a mismatched int/float infix such as
`1 + 2.0` records a CompileError.  Evaluating the code generator on that
expression statement shows that `__visit_infix_expression` falls through
both `isinstance` branches with `value = None, Type = None`: no diagnostic
is recorded and no instruction is emitted. -/
theorem claim_C2_eval :
    (compileProgram mismatchProgram).map (fun st => (st.instructions, st.errors))
    = .ok ([], []) := rfl

/-- C3.  The claim states that calling an undeclared name records a
CompileError and does not fault.  Evaluating the code generator on `g()`
with `g` unbound shows that `func, ret_type = self.env.lookup(name)` in
`__visit_call_expression` unpacks `None`, i.e. a `TypeError` escapes
(modelled as `CompFault.unpackNone`) and no diagnostic is recorded. -/
theorem claim_C3_eval :
    compileProgram unboundCallProgram = .error .unpackNone := rfl

/-- C5 counterexample.  The claim says an unsupported type annotation is
reported "regardless of whether the declared name is already bound or
unbound".  On `x: int = 5` followed by `x: bool = 2` the second declaration
finds `x` bound, never consults the type map, records no diagnostic, and
emits the store anyway — so the claim as stated is false. -/
theorem claim_C5_counterexample :
    (compileProgram boundBadTypeProgram).map
      (fun st => (st.errors, st.instructions))
    = .ok ([],
           [.alloca "<module>" 0 .i32 "x",
            .store "<module>" (.const .i32 5) (.ptr 0),
            .store "<module>" (.const .i32 2) (.ptr 0)]) := rfl

/-- C5 amended: the unsupported-annotation diagnostic (with processing
stopped before any allocation) is recorded only when the name is unbound in
the environment chain; when the name is already bound the annotation is
ignored and the value is stored to the existing slot with no diagnostic. -/
theorem claim_C5_amended (st : CompState) (name vt : String) (n : Int)
    (hty : type_map vt = none) :
    (st.env.lookup name = none →
      visitVariableStatement st name vt (some (.integerLiteral n))
        = .ok { st with errors := st.errors ++ [.unknownType vt name] })
    ∧ (∀ p t, st.env.lookup name = some (p, t) →
      visitVariableStatement st name vt (some (.integerLiteral n))
        = .ok (st.emit (.store st.block (.const .i32 n) p))) := by
  constructor
  · intro h
    simp [visitVariableStatement, resolveOptValue, resolveValue, h, hty]
  · intro p t h
    simp [visitVariableStatement, resolveOptValue, resolveValue, h]

/-- Witness for the amended C5: both branches at concrete states — `x`
unbound in `initCompState`, bound to `ptr 0` in `boundState`. -/
theorem claim_C5_witness :
    visitVariableStatement initCompState "x" "bool" (some (.integerLiteral 2))
      = .ok { initCompState with
              errors := initCompState.errors ++ [.unknownType "bool" "x"] }
    ∧ visitVariableStatement boundState "x" "bool" (some (.integerLiteral 2))
      = .ok (boundState.emit (.store boundState.block (.const .i32 2) (.ptr 0))) :=
  ⟨(claim_C5_amended initCompState "x" "bool" 2 rfl).1 rfl,
   (claim_C5_amended boundState "x" "bool" 2 rfl).2 (.ptr 0) (some .i32) rfl⟩

/-- C6 counterexample.  The claim says the function's name is registered in
the *outer* scope before the body is compiled.  Inspecting the state handed
to the body (the part of `__visit_function_statement` before
`self.compile(body)`) on a fresh compiler shows the name is registered in
the newly pushed *inner* scope, while the outer scope's record table is
still empty. -/
theorem claim_C6_counterexample :
    (functionBodySetup initCompState "f" .i32).env.records
      = [("f", .funcRef "f", some .i32)]
    ∧ (functionBodySetup initCompState "f" .i32).env.parent
      = some initCompState.env
    ∧ initCompState.env.records = [] := ⟨rfl, rfl, rfl⟩

/-- C6 amended: before compiling the body the function's name is registered
in the newly pushed inner scope (whose parent is the previous scope, so the
body can still resolve it for self-recursion); when the body compiles
normally, the name is registered in the outer scope afterwards and the
saved cursor (insertion block) and scope are restored. -/
theorem claim_C6_amended (st : CompState) (name rt : String) (rty : IRType)
    (body : List Stmt) (st2 : CompState)
    (hrt : type_map rt = some rty)
    (hbody : compileStmts (functionBodySetup st name rty) body = .ok st2) :
    (functionBodySetup st name rty).env.records
      = [(name, .funcRef name, some rty)]
    ∧ (functionBodySetup st name rty).env.parent = some st.env
    ∧ compileStmt st (.functionStatement name [] rt body)
        = .ok { st2 with
                env := st.env.define name (.funcRef name) (some rty)
                block := st.block } := by
  refine ⟨rfl, rfl, ?_⟩
  simp [compileStmt, hrt, hbody]

/-- Witness for the amended C6 at a concrete input (empty body, fresh
state). -/
theorem claim_C6_witness :
    (functionBodySetup initCompState "g" .i32).env.records
      = [("g", .funcRef "g", some .i32)]
    ∧ (functionBodySetup initCompState "g" .i32).env.parent
      = some initCompState.env
    ∧ compileStmt initCompState (.functionStatement "g" [] "int" [])
        = .ok { functionBodySetup initCompState "g" .i32 with
                env := initCompState.env.define "g" (.funcRef "g") (some .i32)
                block := initCompState.block } :=
  claim_C6_amended initCompState "g" "int" .i32 [] _ rfl rfl

/-- C4.  For every sum-class operator `o1` and product-class operator `o2`,
parsing the token sequence of `2 o1 3 o2 4` binds the product-class
operator tighter: the result is an Infix node with operator `o1` whose
right child is the Infix node `3 o2 4`.  In particular `2 + 3 * 4` parses
as `2 + (3 * 4)`. -/
theorem claim_C4 :
    ∀ o1 ∈ sumOps, ∀ o2 ∈ productOps,
      (parseExpression 100 (initParser (lexerInit (mkArithSource o1 o2)))
          .pLowest).map Prod.fst
      = some (some (.infixExpression (some (.integerLiteral 2)) o1
          (some (.infixExpression (some (.integerLiteral 3)) o2
            (some (.integerLiteral 4)))))) := by
  intro o1 h1 o2 h2
  fin_cases h1 <;> fin_cases h2 <;> rfl

/-- Witness for C4 at the spec scenario `2 + 3 * 4`. -/
theorem claim_C4_witness :
    (parseExpression 100 (initParser (lexerInit (mkArithSource "+" "*")))
        .pLowest).map Prod.fst
    = some (some (.infixExpression (some (.integerLiteral 2)) "+"
        (some (.infixExpression (some (.integerLiteral 3)) "*"
          (some (.integerLiteral 4)))))) :=
  claim_C4 "+" (by decide) "*" (by decide)

/-! ### Claims about the lexer -/

/-- C8 counterexample.  The claim says quote-delimited strings are scanned
with escape processing, with ILLEGAL reserved for bad escapes or
unterminated strings.  Lexing the well-formed string source `"a"` (no
escapes, properly terminated) instead yields an ILLEGAL token for each
quote character and an IDENTIFIER for the body — the lexer has no string
scanning at all. -/
theorem claim_C8_counterexample :
    tokenizeFuel 10 (lexerInit "\"a\"")
    = [{ type := .ILLEGAL, literal := .str "\"", line_no := 1, position := 0 },
       { type := .IDENTIFIER, literal := .str "a", line_no := 1, position := 2 },
       { type := .ILLEGAL, literal := .str "\"", line_no := 1, position := 2 },
       { type := .EOF, literal := .str "", line_no := 1, position := 3 }] := rfl

/-- C8 amended: a double-quote character is not part of any token class;
whenever it is the current character, `next_token` falls through to the
default case and produces an ILLEGAL token whose literal is just the quote
character, advancing by one character.  No escape sequence processing
exists in the lexer. -/
theorem claim_C8_amended (l : Lexer) (h : l.current_char = some '"') :
    l.next_token
    = (l.read_char,
       { type := .ILLEGAL, literal := .str "\"", line_no := l.line_no
         position := l.position }) := by
  have hskip : skipWhitespaceFuel (l.source.length + 2) l = l := by
    show skipWhitespaceFuel (l.source.length + 1 + 1) l = l
    unfold skipWhitespaceFuel
    rw [h]
    simp
  simp only [Lexer.next_token, hskip]
  simp only [dispatchToken, h]
  simp [dispatchChar, Lexer.newToken, String.singleton, isLetterCh, isDigitCh]
  rfl

/-- Witness for the amended C8 on the concrete source `"a"`. -/
theorem claim_C8_witness :
    (lexerInit "\"a\"").next_token
    = ((lexerInit "\"a\"").read_char,
       { type := .ILLEGAL, literal := .str "\""
         line_no := (lexerInit "\"a\"").line_no
         position := (lexerInit "\"a\"").position }) :=
  claim_C8_amended (lexerInit "\"a\"") rfl

/-- One `parse_program` iteration on the `"1.2.3"` state: `__parse_statement`
consumes no token (the ILLEGAL token has no prefix handler, and the
no-prefix path advances nothing); it only appends the same diagnostic. -/
theorem stuckStatement : ∀ (fuel : Nat) (errs : List ParseErr),
    parseStatement fuel (stuckParser errs) = none ∨
    parseStatement fuel (stuckParser errs)
      = some (some (.expressionStatement none),
              stuckParser (errs ++ [.noPrefixFn .ILLEGAL]))
  | 0, _ => Or.inl rfl
  | 1, _ => Or.inl rfl
  | 2, _ => Or.inl rfl
  | 3, _ => Or.inl rfl
  | _ + 4, _ => Or.inr rfl

/-- The `parse_program` loop never terminates from the `"1.2.3"` state:
every iteration returns to the same token position, so no amount of fuel
completes it. -/
theorem stuckLoop : ∀ (fuel : Nat) (errs : List ParseErr) (acc : List Stmt),
    parseProgramLoop fuel (stuckParser errs) acc = none
  | 0, _, _ => rfl
  | 1, _, _ => rfl
  | fuel + 2, errs, acc => by
    have e1 : parseProgramLoop (fuel + 2) (stuckParser errs) acc
        = match parseStatement (fuel + 1) (stuckParser errs) with
          | none => none
          | some (stmt?, p) =>
            let acc2 := match stmt? with | some s => acc ++ [s] | none => acc
            match skipNewlinesCur (fuel + 1) p with
            | none => none
            | some p => parseProgramLoop (fuel + 1) p acc2 := rfl
    rcases stuckStatement (fuel + 1) errs with h | h
    · rw [e1, h]
    · rw [e1, h]
      exact stuckLoop (fuel + 1) (errs ++ [.noPrefixFn .ILLEGAL])
        (acc ++ [.expressionStatement none])

/-- C7.  On the source `"1.2.3"` the lexer does yield an ILLEGAL token (no
crash), as claimed; but the parser does not terminate: `parse_program`
never advances past the ILLEGAL token, so for every amount of fuel the run
is incomplete (each iteration re-appends the same no-prefix-handler
diagnostic without consuming a token). -/
theorem claim_C7 :
    ((lexerInit "1.2.3").next_token).2.type = .ILLEGAL
    ∧ ∀ fuel, parseProgram fuel (initParser (lexerInit "1.2.3")) = none :=
  ⟨rfl, fun fuel => stuckLoop fuel [] []⟩

/-- Appending one statement to an accumulator. -/
theorem stmtsCallsEmpty_append : ∀ (l1 : List Stmt) (s : Stmt),
    stmtsCallsEmpty (l1 ++ [s]) = (stmtsCallsEmpty l1 && stmtCallsEmpty s)
  | [], s => by simp [stmtsCallsEmpty]
  | a :: rest, s => by
    show (stmtCallsEmpty a && stmtsCallsEmpty (rest ++ [s]))
      = (stmtCallsEmpty a && stmtsCallsEmpty rest && stmtCallsEmpty s)
    rw [stmtsCallsEmpty_append rest s, Bool.and_assoc]


mutual

theorem parseExpression_ok : ∀ (fuel : Nat) (p : Parser) (prec : PrecedenceType)
    (r : Option Expr × Parser), parseExpression fuel p prec = some r →
    optCallsEmpty r.1 = true
  | 0, _, _, _ => by intro h; exact Option.noConfusion h
  | fuel + 1, p, prec, r => by
    intro h
    unfold parseExpression at h
    split at h
    · exact Option.noConfusion h
    next p1 hs =>
      split at h
      next hp => cases h; rfl
      next pk hp =>
        split at h
        next ha => exact Option.noConfusion h
        next left p2 ha =>
          exact parseExprLoop_ok fuel p2 prec left r
            (applyPrefixFn_ok fuel pk p1 (left, p2) ha) h

theorem parseExprLoop_ok : ∀ (fuel : Nat) (p : Parser) (prec : PrecedenceType)
    (left : Option Expr) (r : Option Expr × Parser),
    optCallsEmpty left = true → parseExprLoop fuel p prec left = some r →
    optCallsEmpty r.1 = true
  | 0, _, _, _, _ => by intro _ h; exact Option.noConfusion h
  | fuel + 1, p, prec, left, r => by
    intro hOK h
    unfold parseExprLoop at h
    dsimp only at h
    split at h
    · split at h
      · exact Option.noConfusion h
      next p1 hs =>
        split at h
        next hi => cases h; exact hOK
        next ik hi =>
          split at h
          next ha => exact Option.noConfusion h
          next left2 p2 ha =>
            exact parseExprLoop_ok fuel p2 prec left2 r
              (applyInfixFn_ok fuel ik p1.nextToken left (left2, p2) hOK ha) h
    · cases h; exact hOK

theorem applyPrefixFn_ok : ∀ (fuel : Nat) (pk : PrefixKind) (p : Parser)
    (r : Option Expr × Parser), applyPrefixFn fuel pk p = some r →
    optCallsEmpty r.1 = true
  | 0, _, _, _ => by intro h; exact Option.noConfusion h
  | fuel + 1, pk, p, r => by
    intro h
    unfold applyPrefixFn at h
    split at h
    · cases h; rfl
    · split at h <;> (cases h; rfl)
    · split at h <;> (cases h; rfl)
    · exact parseGroupedExpression_ok fuel p r h

theorem applyInfixFn_ok : ∀ (fuel : Nat) (ik : InfixKind) (p : Parser)
    (left : Option Expr) (r : Option Expr × Parser),
    optCallsEmpty left = true → applyInfixFn fuel ik p left = some r →
    optCallsEmpty r.1 = true
  | 0, _, _, _, _ => by intro _ h; exact Option.noConfusion h
  | fuel + 1, ik, p, left, r => by
    intro hOK h
    unfold applyInfixFn at h
    split at h
    · exact parseOperatorExpression_ok fuel p left r hOK h
    · exact parseCallExpression_ok fuel p left r hOK h

theorem parseGroupedExpression_ok : ∀ (fuel : Nat) (p : Parser)
    (r : Option Expr × Parser), parseGroupedExpression fuel p = some r →
    optCallsEmpty r.1 = true
  | 0, _, _ => by intro h; exact Option.noConfusion h
  | fuel + 1, p, r => by
    intro h
    unfold parseGroupedExpression at h
    dsimp only at h
    split at h
    next he => exact Option.noConfusion h
    next ep e p1 he =>
      split at h
      · cases h; rfl
      · cases h
        exact parseExpression_ok fuel p.nextToken .pLowest (e, p1) he

theorem parseOperatorExpression_ok : ∀ (fuel : Nat) (p : Parser)
    (left : Option Expr) (r : Option Expr × Parser),
    optCallsEmpty left = true → parseOperatorExpression fuel p left = some r →
    optCallsEmpty r.1 = true
  | 0, _, _, _ => by intro _ h; exact Option.noConfusion h
  | fuel + 1, p, left, r => by
    intro hOK h
    unfold parseOperatorExpression at h
    dsimp only at h
    split at h
    next he => exact Option.noConfusion h
    next ep right p1 he =>
      cases h
      have hr := parseExpression_ok fuel p.nextToken p.currentPrecedence
        (right, p1) he
      show (optCallsEmpty left && optCallsEmpty right) = true
      rw [hOK, hr]
      rfl

theorem parseCallExpression_ok : ∀ (fuel : Nat) (p : Parser)
    (left : Option Expr) (r : Option Expr × Parser),
    optCallsEmpty left = true → parseCallExpression fuel p left = some r →
    optCallsEmpty r.1 = true
  | 0, _, _, _ => by intro _ h; exact Option.noConfusion h
  | _ + 1, p, left, r => by
    intro hOK h
    unfold parseCallExpression at h
    rcases hx : p.expectPeek .RPAREN with ⟨b, p2⟩
    rw [hx] at h
    dsimp only at h
    cases b with
    | false => cases h; rfl
    | true =>
      cases h
      show (List.isEmpty ([] : List Expr) && optCallsEmpty left) = true
      rw [hOK]
      rfl

theorem parseStatement_ok : ∀ (fuel : Nat) (p : Parser)
    (r : Option Stmt × Parser), parseStatement fuel p = some r →
    optStmtCallsEmpty r.1 = true
  | 0, _, _ => by intro h; exact Option.noConfusion h
  | fuel + 1, p, r => by
    intro h
    unfold parseStatement at h
    split at h
    · exact Option.noConfusion h
    next p1 hs =>
      split at h
      · split at h
        · exact parseAssignStatement_ok fuel p1 r h
        · exact parseVariableStatement_ok fuel p1 r h
      · exact parseFunctionStatement_ok fuel p1 r h
      · exact parseReturnStatement_ok fuel p1 r h
      · exact parseExpressionStatement_ok fuel p1 r h

theorem parseExpressionStatement_ok : ∀ (fuel : Nat) (p : Parser)
    (r : Option Stmt × Parser), parseExpressionStatement fuel p = some r →
    optStmtCallsEmpty r.1 = true
  | 0, _, _ => by intro h; exact Option.noConfusion h
  | fuel + 1, p, r => by
    intro h
    unfold parseExpressionStatement at h
    dsimp only at h
    split at h
    next he => exact Option.noConfusion h
    next e p1 he =>
      cases h
      exact parseExpression_ok fuel p .pLowest (e, p1) he

theorem parseVariableStatement_ok : ∀ (fuel : Nat) (p : Parser)
    (r : Option Stmt × Parser), parseVariableStatement fuel p = some r →
    optStmtCallsEmpty r.1 = true
  | 0, _, _ => by intro h; exact Option.noConfusion h
  | fuel + 1, p, r => by
    intro h
    unfold parseVariableStatement at h
    dsimp only at h
    split at h
    · cases h; rfl
    · split at h
      · cases h; rfl
      · split at h
        · cases h; rfl
        · split at h
          · cases h; rfl
          · split at h
            next he => exact Option.noConfusion h
            next ep v p4 he =>
              split at h
              next hl => exact Option.noConfusion h
              next p5 hl =>
                cases h
                exact parseExpression_ok fuel _ .pLowest (v, p4) he

theorem parseFunctionStatement_ok : ∀ (fuel : Nat) (p : Parser)
    (r : Option Stmt × Parser), parseFunctionStatement fuel p = some r →
    optStmtCallsEmpty r.1 = true
  | 0, _, _ => by intro h; exact Option.noConfusion h
  | fuel + 1, p, r => by
    intro h
    unfold parseFunctionStatement at h
    dsimp only at h
    split at h
    · cases h; rfl
    · split at h
      · cases h; rfl
      · split at h
        · cases h; rfl
        · split at h
          · cases h; rfl
          · split at h
            · cases h; rfl
            · split at h
              · cases h; rfl
              · split at h
                next hb => exact Option.noConfusion h
                next bp body p7 hb =>
                  cases h
                  have hbody := parseBlockStatement_ok fuel _ (body, p7) hb
                  show (List.isEmpty ([] : List Expr) && stmtsCallsEmpty body) = true
                  rw [hbody]
                  rfl

theorem parseReturnStatement_ok : ∀ (fuel : Nat) (p : Parser)
    (r : Option Stmt × Parser), parseReturnStatement fuel p = some r →
    optStmtCallsEmpty r.1 = true
  | 0, _, _ => by intro h; exact Option.noConfusion h
  | fuel + 1, p, r => by
    intro h
    unfold parseReturnStatement at h
    dsimp only at h
    split at h
    next he => exact Option.noConfusion h
    next ep rv p1 he =>
      split at h
      · cases h; rfl
      · cases h
        exact parseExpression_ok fuel p.nextToken .pLowest (rv, p1) he

theorem parseBlockStatement_ok : ∀ (fuel : Nat) (p : Parser)
    (r : List Stmt × Parser), parseBlockStatement fuel p = some r →
    stmtsCallsEmpty r.1 = true
  | 0, _, _ => by intro h; exact Option.noConfusion h
  | fuel + 1, p, r => by
    intro h
    unfold parseBlockStatement at h
    exact parseBlockLoop_ok fuel p.nextToken [] r rfl h

theorem parseBlockLoop_ok : ∀ (fuel : Nat) (p : Parser) (acc : List Stmt)
    (r : List Stmt × Parser), stmtsCallsEmpty acc = true →
    parseBlockLoop fuel p acc = some r → stmtsCallsEmpty r.1 = true
  | 0, _, _, _ => by intro _ h; exact Option.noConfusion h
  | fuel + 1, p, acc, r => by
    intro hAcc h
    unfold parseBlockLoop at h
    dsimp only at h
    split at h
    · cases h; exact hAcc
    · split at h
      next hs => exact Option.noConfusion h
      next sp s? p1 hs =>
        have hsOK := parseStatement_ok fuel p (s?, p1) hs
        cases s? with
        | none => exact parseBlockLoop_ok fuel p1.nextToken acc r hAcc h
        | some s =>
          refine parseBlockLoop_ok fuel p1.nextToken (acc ++ [s]) r ?_ h
          rw [stmtsCallsEmpty_append, hAcc]
          rw [show stmtCallsEmpty s = true from hsOK]
          rfl

theorem parseAssignStatement_ok : ∀ (fuel : Nat) (p : Parser)
    (r : Option Stmt × Parser), parseAssignStatement fuel p = some r →
    optStmtCallsEmpty r.1 = true
  | 0, _, _ => by intro h; exact Option.noConfusion h
  | fuel + 1, p, r => by
    intro h
    unfold parseAssignStatement at h
    dsimp only at h
    split at h
    next he => exact Option.noConfusion h
    next ep rv p1 he =>
      cases h
      exact parseExpression_ok fuel p.nextToken.nextToken .pLowest (rv, p1) he

theorem parseProgramLoop_ok : ∀ (fuel : Nat) (p : Parser) (acc : List Stmt)
    (r : List Stmt × Parser), stmtsCallsEmpty acc = true →
    parseProgramLoop fuel p acc = some r → stmtsCallsEmpty r.1 = true
  | 0, _, _, _ => by intro _ h; exact Option.noConfusion h
  | fuel + 1, p, acc, r => by
    intro hAcc h
    unfold parseProgramLoop at h
    dsimp only at h
    split at h
    · exact Option.noConfusion h
    next p1 hs =>
      split at h
      · cases h; exact hAcc
      · split at h
        next hst => exact Option.noConfusion h
        next sp s? p2 hst =>
          have hsOK := parseStatement_ok fuel p1 (s?, p2) hst
          split at h
          next hs2 => exact Option.noConfusion h
          next p3 hs2 =>
            cases s? with
            | none => exact parseProgramLoop_ok fuel p3 acc r hAcc h
            | some s =>
              refine parseProgramLoop_ok fuel p3 (acc ++ [s]) r ?_ h
              rw [stmtsCallsEmpty_append, hAcc]
              rw [show stmtCallsEmpty s = true from hsOK]
              rfl

end

theorem parseProgram_ok (fuel : Nat) (p : Parser) :
    progResultCallsEmpty (parseProgram fuel p) = true := by
  cases hr : parseProgram fuel p with
  | none => rfl
  | some r =>
    show stmtsCallsEmpty r.1 = true
    exact parseProgramLoop_ok fuel p [] r rfl hr

/-- C10.  Every `CallExpression` node produced by the parser has an empty
argument list (`__parse_call_expression` sets `arguments = []` and
immediately requires a closing parenthesis); and a call written with an
argument, as in `x: int = f(1)`, yields a recorded expected-RPAREN
diagnostic and no populated argument list. -/
theorem claim_C10 :
    (∀ (fuel : Nat) (p : Parser),
      progResultCallsEmpty (parseProgram fuel p) = true)
    ∧ parseSource 300 "x: int = f(1)\n"
        = some ([.variableStatement "x" "int" none],
                [.expected .RPAREN .INT]) :=
  ⟨parseProgram_ok, rfl⟩

end PyCompiler
